import Mathlib

/-!
Verification development for the Scenario Automation Engine of the
sei-defi-agent repository.

The definitions below are a shallow embedding of the TypeScript sources:

* `src/backend/src/automation/dynamic-automation-engine.ts`
  (`DynamicAutomationEngine`: context registry, trigger evaluation,
  priority scheduling with preemption, result aggregation);
* `src/src/strategies/yield-optimization.ts`
  (`YieldOptimizationStrategy`: diversification score, withdraw sizing,
  rebalance decision).

Modelling conventions:

* TypeScript `number` / BigNumber decimal-string values are embedded as `ℚ`
  (BigNumber is arbitrary-precision decimal arithmetic; every operation the
  embedded code performs on these values is exact in `ℚ`).
* `BigNumber.toFixed(6)` is embedded as rounding to six decimal places.
* The engine's external effects (the agent-kit strategy executor reached from
  `executeScenario`) are an oracle parameter
  `exec : AutomationScenario → Except String ScenarioExecutionResult`;
  a thrown exception is `Except.error` with the error message.
* The `Map<string, AutomationContext>` registry is embedded as a function
  `String → Option AutomationContext`, with `Map.set` as pointwise update.
* Scenario runtime type tags are `String` (the TypeScript unions are erased at
  runtime, and the engine's `switch` statements have explicit default cases
  for unknown tags).
-/

/-- A transaction descriptor produced by a scenario execution.  The engine
treats transactions opaquely (an `any[]` it concatenates), so the payload is
abstract. -/
structure Tx where
  payload : String
deriving DecidableEq

/-- `AutomationTrigger` from dynamic-automation-engine.ts: a runtime trigger
record.  `ttype` embeds the `type` field (a runtime string; the engine
dispatches on it with a default case). -/
structure AutomationTrigger where
  ttype : String
  condition : String
  value : ℚ
  comparison : String
deriving DecidableEq

/-- The free-form `parameters` bag of a scenario, restricted to the single
field the engine's own logic reads (`parameters.lastExecution`, used by the
time trigger; `undefined` and `0` both collapse to `0` via `|| 0`).  All other
parameter fields are only forwarded to the external strategy executor. -/
structure ScenarioParameters where
  lastExecution : Option ℚ := none
deriving DecidableEq

/-- `AutomationScenario` from dynamic-automation-engine.ts.  `stype` embeds
the `type` field. -/
structure AutomationScenario where
  id : String
  name : String
  stype : String
  enabled : Bool
  triggers : List AutomationTrigger
  parameters : ScenarioParameters
  riskLevel : String
  priority : ℤ
deriving DecidableEq

/-- The `globalConfig` record of an `AutomationContext`. -/
structure GlobalConfig where
  maxSlippage : ℚ
  riskTolerance : String
  emergencyStopLoss : ℚ
  maxGasPrice : String
  preferredProtocols : List String
deriving DecidableEq

/-- The `performanceMetrics` record of an `AutomationContext`. -/
structure PerformanceMetrics where
  totalExecutions : ℕ
  successRate : ℚ
  totalProfit : ℚ
  totalGasCost : ℚ
  lastExecution : ℚ
deriving DecidableEq

/-- `AutomationContext` from dynamic-automation-engine.ts. -/
structure AutomationContext where
  userAddress : String
  chainId : ℤ
  scenarios : List AutomationScenario
  globalConfig : GlobalConfig
  performanceMetrics : PerformanceMetrics
deriving DecidableEq

/-- `ScenarioExecutionResult` from dynamic-automation-engine.ts.  Optional
fields are `Option`; a JavaScript `undefined` is `none` (note an *empty
array* of transactions is `some []`, which is truthy in JavaScript). -/
structure ScenarioExecutionResult where
  scenarioId : String
  scenarioName : String
  success : Bool
  executed : Bool
  message : String
  transactions : Option (List Tx) := none
  profit : Option ℚ := none
  gasUsed : Option ℚ := none
deriving DecidableEq

/-- `evaluateTimeTrigger`: `(now − lastExecution) ≥ trigger.value * 1000`
(the trigger value is in seconds, `now` in milliseconds). -/
def evaluateTimeTrigger (now : ℚ) (trigger : AutomationTrigger)
    ( scen : AutomationScenario) : Bool :=
  let interval := trigger.value * 1000
  let lastExecution := scen.parameters.lastExecution.getD 0
  decide (interval ≤ now - lastExecution)

/-- `evaluatePriceTrigger`: the source is an unimplemented placeholder that
returns `true` unconditionally ("For now, return true as placeholder"). -/
def evaluatePriceTrigger (_trigger : AutomationTrigger)
    (_scen : AutomationScenario) (_context : AutomationContext) : Bool :=
  true

/-- `evaluateAPYTrigger`: placeholder returning `true` unconditionally. -/
def evaluateAPYTrigger (_trigger : AutomationTrigger)
    (_scen : AutomationScenario) (_context : AutomationContext) : Bool :=
  true

/-- `evaluateHealthFactorTrigger`: placeholder returning `true`
unconditionally. -/
def evaluateHealthFactorTrigger (_trigger : AutomationTrigger)
    (_scen : AutomationScenario) (_context : AutomationContext) : Bool :=
  true

/-- `evaluateProfitTrigger`: placeholder returning `true` unconditionally. -/
def evaluateProfitTrigger (_trigger : AutomationTrigger)
    (_scen : AutomationScenario) (_context : AutomationContext) : Bool :=
  true

/-- `evaluateLossTrigger`: placeholder returning `true` unconditionally. -/
def evaluateLossTrigger (_trigger : AutomationTrigger)
    (_scen : AutomationScenario) (_context : AutomationContext) : Bool :=
  true

/-- The `try` body of `evaluateTrigger`: the `switch` over the trigger type.
Each of the six known tags calls its evaluator; an unknown tag returns
`false` directly (still inside the `try`).  `Except.error` is how a thrown
exception from an evaluator would surface; the placeholder evaluators are
total, so no case currently produces one. -/
def evaluateTriggerBody (now : ℚ) (trigger : AutomationTrigger)
    ( scen : AutomationScenario) (context : AutomationContext) :
    Except String Bool :=
  match trigger.ttype with
  | "time_based" => .ok (evaluateTimeTrigger now trigger scen)
  | "price_based" => .ok (evaluatePriceTrigger trigger scen context)
  | "apy_based" => .ok (evaluateAPYTrigger trigger scen context)
  | "health_factor" => .ok (evaluateHealthFactorTrigger trigger scen context)
  | "profit_threshold" => .ok (evaluateProfitTrigger trigger scen context)
  | "loss_threshold" => .ok (evaluateLossTrigger trigger scen context)
  | _ => .ok false

/-- The `catch` clause of `evaluateTrigger`: a thrown evaluation yields
`false`. -/
def catchTriggerError (e : Except String Bool) : Bool :=
  match e with
  | .ok b => b
  | .error _ => false

/-- `evaluateTrigger`: the `try`/`catch` wrapper around the dispatch. -/
def evaluateTrigger (now : ℚ) (trigger : AutomationTrigger)
    ( scen : AutomationScenario) (context : AutomationContext) : Bool :=
  catchTriggerError (evaluateTriggerBody now trigger scen context)

/-- The loop of `checkScenarioTriggers` over a trigger list: returns `false`
at the first trigger that does not hold, `true` when the list is
exhausted. -/
def checkTriggerList (now : ℚ) ( scen : AutomationScenario)
    (context : AutomationContext) : List AutomationTrigger → Bool
  | [] => true
  | trigger :: rest =>
    if evaluateTrigger now trigger scen context = false then false
    else checkTriggerList now scen context rest

/-- `checkScenarioTriggers`: all triggers of the scenario must be met. -/
def checkScenarioTriggers (now : ℚ) ( scen : AutomationScenario)
    (context : AutomationContext) : Bool :=
  checkTriggerList now scen context scen.triggers

theorem checkTriggerList_eq_true_iff (now : ℚ) ( scen : AutomationScenario)
    (context : AutomationContext) (l : List AutomationTrigger) :
    checkTriggerList now scen context l = true ↔
      ∀ t ∈ l, evaluateTrigger now t scen context = true := by
  induction l with
  | nil => simp [checkTriggerList]
  | cons t rest ih =>
    by_cases h : evaluateTrigger now t scen context = false
    · simp [checkTriggerList, h]
    · have ht : evaluateTrigger now t scen context = true := by
        revert h; cases evaluateTrigger now t scen context <;> simp
      simp [checkTriggerList, ht, ih]

/-- Claim C1: `checkScenarioTriggers` returns `true` iff every trigger of the
scenario individually evaluates `true` (logical conjunction), and in
particular it returns `true` for a scenario with an empty trigger list. -/
theorem checkScenarioTriggers_conjunction (now : ℚ)
    ( scen : AutomationScenario) (context : AutomationContext) :
    (checkScenarioTriggers now scen context = true ↔
      ∀ t ∈ scen.triggers, evaluateTrigger now t scen context = true) ∧
    ( scen.triggers = [] → checkScenarioTriggers now scen context = true) := by
  refine ⟨checkTriggerList_eq_true_iff now scen context scen.triggers, ?_⟩
  intro h
  simp [checkScenarioTriggers, h, checkTriggerList]

/-- A concrete scenario with an empty trigger list, priority 10. -/
def scenNoTriggers : AutomationScenario :=
  { id := "A", name := "high", stype := "yield_optimization", enabled := true,
    triggers := [], parameters := {}, riskLevel := "low", priority := 10 }

/-- A default global configuration used by concrete test contexts. -/
def cfg0 : GlobalConfig :=
  { maxSlippage := 1, riskTolerance := "medium", emergencyStopLoss := 10,
    maxGasPrice := "100", preferredProtocols := [] }

/-- Fresh performance metrics, as written by registration. -/
def metrics0 : PerformanceMetrics :=
  { totalExecutions := 0, successRate := 0, totalProfit := 0,
    totalGasCost := 0, lastExecution := 0 }

/-- A concrete context holding the single trigger-free scenario. -/
def ctx0 : AutomationContext :=
  { userAddress := "0xU", chainId := 1329, scenarios := [scenNoTriggers],
    globalConfig := cfg0, performanceMetrics := metrics0 }

/-- Witness for C1: at the concrete trigger-free scenario, the theorem yields
`checkScenarioTriggers = true`. -/
theorem checkScenarioTriggers_conjunction_witness :
    checkScenarioTriggers 0 scenNoTriggers ctx0 = true :=
  (checkScenarioTriggers_conjunction 0 scenNoTriggers ctx0).2 rfl

/-- The per-cycle accumulators of `executeAutomationTasks`: the `results`
array, `totalTransactions`, `totalProfit`, `totalGasUsed`. -/
structure CycleAccum where
  results : List ScenarioExecutionResult
  totalTransactions : List Tx
  totalProfit : ℚ
  totalGasUsed : ℚ
deriving DecidableEq

/-- The scenario loop of `executeAutomationTasks` (lines 134–182 of
dynamic-automation-engine.ts).  `exec` is the external
`executeScenario` call: `Except.error msg` embeds a thrown exception whose
message is `msg`, caught by the loop's `catch` clause.  Disabled scenarios
are skipped without a result entry; a scenario whose triggers are not met
gets a `success, not executed` entry; a successfully fetched result
contributes its transactions, profit and gas when
`success && executed && transactions` holds; and a high-priority
(`priority > 8`) scenario whose result has `executed = true` breaks the loop
(the remaining scenarios are not processed at all).  The in-place
`updatePerformanceMetrics` mutation touches only
`context.performanceMetrics`, which no later step of the cycle reads, so it
is not threaded here. -/
def runScenarios (exec : AutomationScenario → Except String ScenarioExecutionResult)
    (now : ℚ) (context : AutomationContext) :
    List AutomationScenario → CycleAccum
  | [] => ⟨[], [], 0, 0⟩
  | scen :: rest =>
    if scen.enabled = false then runScenarios exec now context rest
    else if checkScenarioTriggers now scen context = false then
      let r : ScenarioExecutionResult :=
        { scenarioId := scen.id, scenarioName := scen.name,
          success := true, executed := false,
          message := "Triggers not met, skipping scenario" }
      let acc := runScenarios exec now context rest
      ⟨r :: acc.results, acc.totalTransactions, acc.totalProfit, acc.totalGasUsed⟩
    else
      match exec scen with
      | .error msg =>
        let r : ScenarioExecutionResult :=
          { scenarioId := scen.id, scenarioName := scen.name,
            success := false, executed := false,
            message := "Error: " ++ msg }
        let acc := runScenarios exec now context rest
        ⟨r :: acc.results, acc.totalTransactions, acc.totalProfit, acc.totalGasUsed⟩
      | .ok result =>
        let contributes := result.success && result.executed && result.transactions.isSome
        let dtx := if contributes then result.transactions.getD [] else []
        let dp := if contributes then result.profit.getD 0 else 0
        let dg := if contributes then result.gasUsed.getD 0 else 0
        if 8 < scen.priority ∧ result.executed = true then
          ⟨[result], dtx, dp, dg⟩
        else
          let acc := runScenarios exec now context rest
          ⟨result :: acc.results, dtx ++ acc.totalTransactions,
            dp + acc.totalProfit, dg + acc.totalGasUsed⟩

/-- The `summary` object built at the end of a cycle (lines 188–195). -/
structure CycleSummary where
  totalScenarios : ℕ
  executedScenarios : ℕ
  successfulScenarios : ℕ
  totalProfit : ℚ
  totalGasUsed : ℚ
  scenarios : List ScenarioExecutionResult
deriving DecidableEq

/-- The brahma-console-kit `ExecutionResult` as populated by the engine. -/
structure ExecutionResult where
  skip : Bool
  message : String
  transactions : Option (List Tx) := none
  gasEstimate : ℚ := 0
  expectedProfit : Option ℚ := none
  metadata : Option CycleSummary := none
deriving DecidableEq

/-- `executeAutomationTasks` (lines 114–214): looks up the owner's context
(no context ⇒ an ordinary `skip = true` result), runs the scenario loop,
and aggregates.  The codomain is `Except` so that "raises to its caller"
is expressible; the source body never throws, so every branch is `.ok`. -/
def executeAutomationTasks (contexts : String → Option AutomationContext)
    (subAccountAddress : String)
    (exec : AutomationScenario → Except String ScenarioExecutionResult)
    (now : ℚ) : Except String ExecutionResult :=
  match contexts subAccountAddress with
  | none =>
    .ok { skip := true, message := "No automation context found for user",
          gasEstimate := 0 }
  | some context =>
    let acc := runScenarios exec now context context.scenarios
    let executedScenarios := acc.results.filter (fun r => r.executed)
    let successfulScenarios := acc.results.filter (fun r => r.success && r.executed)
    let summary : CycleSummary :=
      { totalScenarios := acc.results.length,
        executedScenarios := executedScenarios.length,
        successfulScenarios := successfulScenarios.length,
        totalProfit := acc.totalProfit,
        totalGasUsed := acc.totalGasUsed,
        scenarios := acc.results }
    if 0 < acc.totalTransactions.length then
      .ok { skip := false,
            message := "Executed " ++ toString executedScenarios.length ++
              " scenarios successfully",
            transactions := some acc.totalTransactions,
            gasEstimate := acc.totalGasUsed,
            expectedProfit := some acc.totalProfit,
            metadata := some summary }
    else
      .ok { skip := true, message := "No scenarios required execution",
            gasEstimate := 0, metadata := some summary }

/-- The sort order of `registerAutomationContext`'s
`scenarios.sort((a, b) => b.priority - a.priority)`: descending priority. -/
def scenarioPriorityGE (a b : AutomationScenario) : Prop :=
  b.priority ≤ a.priority

instance : DecidableRel scenarioPriorityGE :=
  fun a b => inferInstanceAs (Decidable (b.priority ≤ a.priority))

instance : IsTotal AutomationScenario scenarioPriorityGE :=
  ⟨fun a b => le_total b.priority a.priority⟩

instance : IsTrans AutomationScenario scenarioPriorityGE :=
  ⟨fun _ _ _ h h2 => le_trans h2 h⟩

/-- `registerAutomationContext` (lines 92–109): creates/overwrites the
owner's context, sorting the scenarios by descending priority
(`Array.prototype.sort` is a stable sort, embedded as a stable insertion
sort).  `chainId` comes from the environment. -/
def registerAutomationContext (contexts : String → Option AutomationContext)
    (userAddress : String) (scenarios : List AutomationScenario)
    (globalConfig : GlobalConfig) (chainId : ℤ) :
    String → Option AutomationContext :=
  let context : AutomationContext :=
    { userAddress := userAddress, chainId := chainId,
      scenarios := List.insertionSort scenarioPriorityGE scenarios,
      globalConfig := globalConfig,
      performanceMetrics :=
        { totalExecutions := 0, successRate := 0, totalProfit := 0,
          totalGasCost := 0, lastExecution := 0 } }
  fun a => if a = userAddress then some context else contexts a

/-- A `Partial<AutomationContext>`: every field optional. -/
structure PartialAutomationContext where
  userAddress : Option String := none
  chainId : Option ℤ := none
  scenarios : Option (List AutomationScenario) := none
  globalConfig : Option GlobalConfig := none
  performanceMetrics : Option PerformanceMetrics := none
deriving DecidableEq

/-- The spread `{ ...existingContext, ...context }` of
`updateAutomationContext`: supplied fields replace existing ones. -/
def mergeContext (existing : AutomationContext)
    (p : PartialAutomationContext) : AutomationContext :=
  { userAddress := p.userAddress.getD existing.userAddress,
    chainId := p.chainId.getD existing.chainId,
    scenarios := p.scenarios.getD existing.scenarios,
    globalConfig := p.globalConfig.getD existing.globalConfig,
    performanceMetrics := p.performanceMetrics.getD existing.performanceMetrics }

/-- `updateAutomationContext` (lines 665–670): merges the partial context
into the existing one; a missing owner is a silent no-op.  Note: the merged
scenario list is stored as supplied, with no re-sorting. -/
def updateAutomationContext (contexts : String → Option AutomationContext)
    (userAddress : String) (p : PartialAutomationContext) :
    String → Option AutomationContext :=
  match contexts userAddress with
  | none => contexts
  | some existing =>
    fun a => if a = userAddress then some (mergeContext existing p) else contexts a

/-- `YeiMarket` (types.ts), restricted to the numeric and symbol fields the
modelled strategy logic reads; identifier/address/status fields are only
echoed into transaction descriptors. -/
structure YeiMarket where
  symbol : String
  supplyAPY : ℚ
  borrowAPY : ℚ
  totalSupply : ℚ
  liquidity : ℚ
  utilizationRate : ℚ
deriving DecidableEq

/-- `YeiPosition` (types.ts), restricted to the fields the modelled strategy
logic reads. -/
structure YeiPosition where
  market : YeiMarket
  suppliedAmount : ℚ
  borrowedAmount : ℚ
  healthFactor : ℚ
deriving DecidableEq

/-- `YeiUserAccount` (types.ts), restricted to the fields the modelled
strategy logic reads. -/
structure YeiUserAccount where
  totalSuppliedUSD : ℚ
  totalBorrowedUSD : ℚ
  healthFactor : ℚ
  positions : List YeiPosition
deriving DecidableEq

/-- `PortfolioMetrics` (types.ts) with numeric fields as `ℚ`. -/
structure PortfolioMetrics where
  totalValueUSD : ℚ
  netAPY : ℚ
  healthFactor : ℚ
  diversificationScore : ℚ
  riskScore : ℚ
  liquidityScore : ℚ
deriving DecidableEq

/-- `RiskMetrics` (types.ts); the risk-level unions are runtime strings. -/
structure RiskMetrics where
  healthFactor : ℚ
  liquidationRisk : String
  concentrationRisk : ℚ
  protocolRisk : ℚ
  marketRisk : ℚ
  overallRisk : String
  recommendations : List String
deriving DecidableEq

/-- `RiskLimits` (types.ts). -/
structure RiskLimits where
  maxPositionSizeUSD : ℚ
  maxProtocolExposure : ℚ
  minHealthFactor : ℚ
  maxLeverage : ℚ
  maxSlippage : ℚ
  emergencyStopLoss : ℚ
deriving DecidableEq

/-- `AgentConfig` (types.ts), restricted to the fields the modelled strategy
logic reads. -/
structure AgentConfig where
  maxSlippage : ℚ
  minYieldThreshold : ℚ
  riskTolerance : String
  maxPositionSize : ℚ
  rebalanceThreshold : ℚ
deriving DecidableEq

/-- `YieldOpportunity` (types.ts), restricted to the fields the modelled
strategy logic reads. -/
structure YieldOpportunity where
  market : YeiMarket
  apy : ℚ
  risk : String
  liquidity : ℚ
  maxDeposit : Option ℚ := none
deriving DecidableEq

/-- `BigNumber.toFixed(6)`: rounding to six decimal places (round half up;
identical to half away from zero on the nonnegative amounts in scope). -/
def roundTo6 (q : ℚ) : ℚ :=
  (round (q * 1000000) : ℚ) / 1000000

/-- `calculateDiversificationScore` (yield-optimization.ts lines 438–459):
0 for no positions, the fixed value 20 for a single position, otherwise
`100·(1 − H)` for the Herfindahl index `H` of supplied-amount weights,
clamped to [0,100] by `Math.min(100, Math.max(0, ·))`.  The `reduce` calls
are `foldl` with initial value 0; a zero total supplied amount returns 0
before any weight is formed. -/
def calculateDiversificationScore (positions : List YeiPosition) : ℚ :=
  if positions.length = 0 then 0
  else if positions.length = 1 then 20
  else
    let totalValue := positions.foldl (fun sum pos => sum + pos.suppliedAmount) 0
    if totalValue = 0 then 0
    else
      let herfindahlIndex :=
        positions.foldl (fun sum pos => sum + (pos.suppliedAmount / totalValue) ^ 2) 0
      let diversificationScore := (1 - herfindahlIndex) * 100
      min 100 (max 0 diversificationScore)

/-- The total supplied amount of a position list (the denominator of the
Herfindahl weights), written as a map-sum for use in claim statements. -/
def totalSuppliedAmount (positions : List YeiPosition) : ℚ :=
  (positions.map (fun pos => pos.suppliedAmount)).sum

/-- The Herfindahl index `Σ weightᵢ²` of supplied-amount weights, written
as a map-sum for use in claim statements. -/
def herfindahlIndexOf (positions : List YeiPosition) : ℚ :=
  (positions.map
    (fun pos => (pos.suppliedAmount / totalSuppliedAmount positions) ^ 2)).sum

/-- `calculateOptimalWithdrawAmount` (yield-optimization.ts lines 567–587):
the minimum-health-factor guard first, then 50% of the supplied amount for
health factor above 3, 25% above 2, else 0.  The unused `riskMetrics`
parameter of the source is kept.  Amounts are formatted with `toFixed(6)`. -/
def calculateOptimalWithdrawAmount (riskLimits : RiskLimits)
    (position : YeiPosition) (_riskMetrics : RiskMetrics) : ℚ :=
  let suppliedAmount := position.suppliedAmount
  let healthFactor := position.healthFactor
  if healthFactor < riskLimits.minHealthFactor then 0
  else if 3 < healthFactor then roundTo6 (suppliedAmount * (1 / 2))
  else if 2 < healthFactor then roundTo6 (suppliedAmount * (1 / 4))
  else 0

/-- The final opportunity check of `shouldRebalance` (lines 291–302): when
the fetch succeeded, `data[0]` is the best opportunity; the code compares
the APY gap against `minYieldThreshold / 100`.  On a successful fetch with
an *empty* list, `data[0]` is `undefined` and reading `.apy` from it throws
a TypeError (`Except.error`). -/
def shouldRebalanceOpportunityCheck (config : AgentConfig) (netAPY : ℚ)
    (opportunitiesResponse : Option (List YieldOpportunity)) :
    Except Unit Bool :=
  match opportunitiesResponse with
  | some (bestOpportunity :: _) =>
    if config.minYieldThreshold / 100 < bestOpportunity.apy - netAPY then .ok true
    else .ok false
  | some [] => .error ()
  | none => .ok false

/-- `shouldRebalance` (yield-optimization.ts lines 261–305).  The
opportunities fetch result is a parameter (`none` embeds a failed fetch);
`targetAPY` is the optional subscription target. -/
def shouldRebalance (config : AgentConfig) (riskLimits : RiskLimits)
    (userAccount : YeiUserAccount) (portfolioMetrics : PortfolioMetrics)
    (riskMetrics : RiskMetrics) (targetAPY : Option ℚ)
    (opportunitiesResponse : Option (List YieldOpportunity)) :
    Except Unit Bool :=
  if userAccount.healthFactor < riskLimits.minHealthFactor then .ok true
  else if riskMetrics.overallRisk = "high" then .ok true
  else
    match targetAPY with
    | some target =>
      let threshold := target * (config.rebalanceThreshold / 100)
      if portfolioMetrics.netAPY < target - threshold then .ok true
      else shouldRebalanceOpportunityCheck config portfolioMetrics.netAPY
        opportunitiesResponse
    | none =>
      shouldRebalanceOpportunityCheck config portfolioMetrics.netAPY
        opportunitiesResponse

/-- Definition following the claim's words for C7: `shouldRebalance` is true
iff the health factor is below the configured minimum, or overall risk is
high, or net APY is below the target minus the configured threshold fraction
of the target, or the best opportunity's APY exceeds net APY by more than
`minYieldThreshold` (the configured value itself, with no division
by 100). -/
def shouldRebalanceClaimed (config : AgentConfig) (riskLimits : RiskLimits)
    (userAccount : YeiUserAccount) (portfolioMetrics : PortfolioMetrics)
    (riskMetrics : RiskMetrics) (targetAPY : Option ℚ)
    (opportunitiesResponse : Option (List YieldOpportunity)) : Bool :=
  decide (userAccount.healthFactor < riskLimits.minHealthFactor) ||
  decide (riskMetrics.overallRisk = "high") ||
  (match targetAPY with
   | some target =>
     decide (portfolioMetrics.netAPY <
       target - target * (config.rebalanceThreshold / 100))
   | none => false) ||
  (match opportunitiesResponse with
   | some (bestOpportunity :: _) =>
     decide (config.minYieldThreshold < bestOpportunity.apy - portfolioMetrics.netAPY)
   | _ => false)

/-- Definition following the spec's words for C8: compare a live signal
against `trigger.value` using the operator named by `trigger.comparison`.
(The spec leaves `percentage_change` semantics open; it is not needed
below.) -/
def compareWithOperator (signal : ℚ) (trigger : AutomationTrigger) : Bool :=
  match trigger.comparison with
  | "greater_than" => decide (trigger.value < signal)
  | "less_than" => decide (signal < trigger.value)
  | "equals" => decide (signal = trigger.value)
  | _ => false

theorem foldl_add_map_sum (f : YeiPosition → ℚ) (l : List YeiPosition) (a : ℚ) :
    l.foldl (fun sum pos => sum + f pos) a = a + (l.map f).sum := by
  induction l generalizing a with
  | nil => simp
  | cons x xs ih => simp [ih]; ring

theorem divScore_two_le (positions : List YeiPosition)
    (h2 : 2 ≤ positions.length) (hne : totalSuppliedAmount positions ≠ 0) :
    calculateDiversificationScore positions =
      min 100 (max 0 (100 * (1 - herfindahlIndexOf positions))) := by
  have hl0 : positions.length ≠ 0 := by omega
  have hl1 : positions.length ≠ 1 := by omega
  have htot : positions.foldl (fun sum pos => sum + pos.suppliedAmount) 0 =
      totalSuppliedAmount positions := by
    simpa [totalSuppliedAmount] using
      foldl_add_map_sum (fun pos => pos.suppliedAmount) positions 0
  have hherf : positions.foldl
      (fun sum pos => sum + (pos.suppliedAmount / totalSuppliedAmount positions) ^ 2) 0 =
      herfindahlIndexOf positions := by
    simpa [herfindahlIndexOf] using
      foldl_add_map_sum
        (fun pos => (pos.suppliedAmount / totalSuppliedAmount positions) ^ 2)
        positions 0
  unfold calculateDiversificationScore
  simp only [hl0, hl1, if_false, htot, hne]
  rw [hherf, mul_comm]

/-- Claim C5: `calculateDiversificationScore` always lies in [0,100];
it is 0 on an empty position list, 20 on a single position, and otherwise
(whenever the supplied-amount weights are defined, i.e. the total supplied
amount is nonzero) equals `100·(1 − H)` clamped to [0,100], where `H` is the
Herfindahl index of supplied-amount weights. -/
theorem calculateDiversificationScore_spec (positions : List YeiPosition) :
    (0 ≤ calculateDiversificationScore positions ∧
      calculateDiversificationScore positions ≤ 100) ∧
    (positions = [] → calculateDiversificationScore positions = 0) ∧
    (positions.length = 1 → calculateDiversificationScore positions = 20) ∧
    (2 ≤ positions.length → totalSuppliedAmount positions ≠ 0 →
      calculateDiversificationScore positions =
        min 100 (max 0 (100 * (1 - herfindahlIndexOf positions)))) := by
  refine ⟨?_, ?_, ?_, divScore_two_le positions⟩
  · by_cases h0 : positions.length = 0
    · simp [calculateDiversificationScore, h0]
    · by_cases h1 : positions.length = 1
      · simp [calculateDiversificationScore, h0, h1]; norm_num
      · by_cases hne : totalSuppliedAmount positions ≠ 0
        · rw [divScore_two_le positions (by omega) hne]
          constructor
          · exact le_min (by norm_num) (le_max_left 0 _)
          · exact min_le_left _ _
        · have htot : positions.foldl (fun sum pos => sum + pos.suppliedAmount) 0 =
              totalSuppliedAmount positions := by
            simpa [totalSuppliedAmount] using
              foldl_add_map_sum (fun pos => pos.suppliedAmount) positions 0
          push_neg at hne
          unfold calculateDiversificationScore
          simp [h0, h1, htot, hne]
  · intro h
    simp [calculateDiversificationScore, h]
  · intro h
    simp [calculateDiversificationScore, h]

/-- Two concrete positions used by the C5 witness. -/
def posUSDC : YeiPosition :=
  { market := { symbol := "USDC", supplyAPY := 8, borrowAPY := 10,
                totalSupply := 10000, liquidity := 5000, utilizationRate := 50 },
    suppliedAmount := 600, borrowedAmount := 0, healthFactor := 16 / 5 }

/-- Second concrete position used by the C5 witness. -/
def posSEI : YeiPosition :=
  { market := { symbol := "SEI", supplyAPY := 6, borrowAPY := 9,
                totalSupply := 8000, liquidity := 2000, utilizationRate := 40 },
    suppliedAmount := 400, borrowedAmount := 0, healthFactor := 16 / 5 }

/-- Witness for C5: the theorem instantiated at a concrete two-position list
with nonzero total supplied amount. -/
theorem calculateDiversificationScore_spec_witness :
    calculateDiversificationScore [posUSDC, posSEI] =
      min 100 (max 0 (100 * (1 - herfindahlIndexOf [posUSDC, posSEI]))) :=
  (calculateDiversificationScore_spec [posUSDC, posSEI]).2.2.2 (by decide)
    (by simp [totalSuppliedAmount, posUSDC, posSEI]; norm_num)

/-- A concrete risk-metrics record (the `riskMetrics` argument of
`calculateOptimalWithdrawAmount` is unused by the source body). -/
def rm0 : RiskMetrics :=
  { healthFactor := 10, liquidationRisk := "low", concentrationRisk := 40,
    protocolRisk := 30, marketRisk := 10, overallRisk := "low",
    recommendations := [] }

/-- Risk limits whose configured minimum health factor is 3.5. -/
def limitsMin3_5 : RiskLimits :=
  { maxPositionSizeUSD := 100000, maxProtocolExposure := 50,
    minHealthFactor := 7 / 2, maxLeverage := 3, maxSlippage := 1,
    emergencyStopLoss := 15 }

/-- Risk limits with the repository's default minimum health factor 1.5. -/
def limitsMin1_5 : RiskLimits :=
  { maxPositionSizeUSD := 100000, maxProtocolExposure := 50,
    minHealthFactor := 3 / 2, maxLeverage := 3, maxSlippage := 1,
    emergencyStopLoss := 15 }

/-- A position with health factor 3.2 and supplied amount 100. -/
def posHF3_2 : YeiPosition :=
  { market := { symbol := "USDC", supplyAPY := 8, borrowAPY := 10,
                totalSupply := 10000, liquidity := 5000, utilizationRate := 50 },
    suppliedAmount := 100, borrowedAmount := 10, healthFactor := 16 / 5 }

/-- Counterexample to claim C6 as stated: with the configured minimum health
factor set to 3.5 and a position of health factor 3.2 > 3, the claim's
"returns 50% of the supplied amount when healthFactor > 3" demands 50, but
the code's minimum-health-factor guard fires first and returns 0. -/
theorem calculateOptimalWithdrawAmount_claim_counterexample :
    calculateOptimalWithdrawAmount limitsMin3_5 posHF3_2 rm0 = 0 ∧
    calculateOptimalWithdrawAmount limitsMin3_5 posHF3_2 rm0 ≠
      roundTo6 (posHF3_2.suppliedAmount * (1 / 2)) := by
  constructor
  · norm_num [calculateOptimalWithdrawAmount, limitsMin3_5, posHF3_2]
  · norm_num [calculateOptimalWithdrawAmount, roundTo6, limitsMin3_5, posHF3_2]

/-- Claim C6 (amended): the minimum-health-factor guard takes precedence:
the withdraw amount is 0 whenever the position's health factor is below the
configured minimum; when it is not, the amount is 50% of the supplied amount
(to 6 decimal places) for health factor above 3, 25% for health factor in
(2,3], and 0 otherwise; in particular it is 0 whenever the health factor is
at most 2, under every configuration. -/
theorem calculateOptimalWithdrawAmount_amended (riskLimits : RiskLimits)
    (position : YeiPosition) (riskMetrics : RiskMetrics) :
    (position.healthFactor < riskLimits.minHealthFactor →
      calculateOptimalWithdrawAmount riskLimits position riskMetrics = 0) ∧
    (position.healthFactor ≤ 2 →
      calculateOptimalWithdrawAmount riskLimits position riskMetrics = 0) ∧
    (riskLimits.minHealthFactor ≤ position.healthFactor →
      calculateOptimalWithdrawAmount riskLimits position riskMetrics =
        (if 3 < position.healthFactor then
          roundTo6 (position.suppliedAmount * (1 / 2))
        else if 2 < position.healthFactor then
          roundTo6 (position.suppliedAmount * (1 / 4))
        else 0)) := by
  unfold calculateOptimalWithdrawAmount
  refine ⟨fun h => by simp [h], fun h => ?_, fun h => ?_⟩
  · by_cases hmin : position.healthFactor < riskLimits.minHealthFactor
    · simp [hmin]
    · have h3 : ¬ 3 < position.healthFactor := by linarith
      have h2 : ¬ 2 < position.healthFactor := by linarith
      simp [hmin, h3, h2]
  · have hmin : ¬ position.healthFactor < riskLimits.minHealthFactor :=
      not_lt.mpr h
    simp [hmin]

/-- Witness for the amended C6: with the default minimum 1.5 and health
factor 3.2 > 3, the amount is 50% of the supplied amount. -/
theorem calculateOptimalWithdrawAmount_amended_witness :
    calculateOptimalWithdrawAmount limitsMin1_5 posHF3_2 rm0 =
      roundTo6 (posHF3_2.suppliedAmount * (1 / 2)) := by
  have h := (calculateOptimalWithdrawAmount_amended limitsMin1_5 posHF3_2 rm0).2.2
    (by norm_num [limitsMin1_5, posHF3_2])
  rw [h]
  norm_num [posHF3_2]

/-- Claim C7 (amended): `shouldRebalance` returns true iff the health factor
is below the configured minimum, or overall risk is high, or (a target APY is
supplied and) net APY is below the target minus the configured threshold
fraction of the target, or the opportunities fetch succeeded and the best
opportunity's APY exceeds the current net APY by more than
`minYieldThreshold / 100` (the configured value interpreted as a percentage),
assuming the fetch does not succeed with an empty opportunity list (on which
the source dereferences `undefined` and throws). -/
theorem shouldRebalance_iff (config : AgentConfig) (riskLimits : RiskLimits)
    (userAccount : YeiUserAccount) (portfolioMetrics : PortfolioMetrics)
    (riskMetrics : RiskMetrics) (targetAPY : Option ℚ)
    (opportunitiesResponse : Option (List YieldOpportunity))
    (hresp : opportunitiesResponse ≠ some []) :
    shouldRebalance config riskLimits userAccount portfolioMetrics riskMetrics
        targetAPY opportunitiesResponse = .ok true ↔
      (userAccount.healthFactor < riskLimits.minHealthFactor ∨
       riskMetrics.overallRisk = "high" ∨
       (∃ target, targetAPY = some target ∧
         portfolioMetrics.netAPY <
           target - target * (config.rebalanceThreshold / 100)) ∨
       (∃ best rest, opportunitiesResponse = some (best :: rest) ∧
         config.minYieldThreshold / 100 <
           best.apy - portfolioMetrics.netAPY)) := by
  unfold shouldRebalance shouldRebalanceOpportunityCheck
  by_cases h1 : userAccount.healthFactor < riskLimits.minHealthFactor
  · simp [h1]
  · by_cases h2 : riskMetrics.overallRisk = "high"
    · simp [h1, h2]
    · rcases targetAPY with _ | target
      · rcases opportunitiesResponse with _ | l
        · simp [h1, h2]
        · rcases l with _ | ⟨best, rest⟩
          · exact absurd rfl hresp
          · by_cases h4 : config.minYieldThreshold / 100 <
                best.apy - portfolioMetrics.netAPY
            · simp [h1, h2, h4]
            · simp [h1, h2, h4]
      · by_cases h3 : portfolioMetrics.netAPY <
            target - target * (config.rebalanceThreshold / 100)
        · simp [h1, h2, h3]
        · rcases opportunitiesResponse with _ | l
          · simp [h1, h2, h3]
          · rcases l with _ | ⟨best, rest⟩
            · exact absurd rfl hresp
            · by_cases h4 : config.minYieldThreshold / 100 <
                  best.apy - portfolioMetrics.netAPY
              · simp [h1, h2, h3, h4]
              · simp [h1, h2, h3, h4]

/-- Agent configuration with `minYieldThreshold = 2` (i.e. 2%). -/
def configMYT2 : AgentConfig :=
  { maxSlippage := 1, minYieldThreshold := 2, riskTolerance := "medium",
    maxPositionSize := 10000, rebalanceThreshold := 10 }

/-- A healthy account (health factor 10, no positions needed here). -/
def accountHealthy : YeiUserAccount :=
  { totalSuppliedUSD := 1000, totalBorrowedUSD := 0, healthFactor := 10,
    positions := [] }

/-- Portfolio metrics with net APY 5%. -/
def metricsNet5 : PortfolioMetrics :=
  { totalValueUSD := 1000, netAPY := 5, healthFactor := 10,
    diversificationScore := 52, riskScore := 10, liquidityScore := 100 }

/-- A best opportunity at 6% APY. -/
def oppAPY6 : YieldOpportunity :=
  { market := { symbol := "USDC", supplyAPY := 6, borrowAPY := 8,
                totalSupply := 50000, liquidity := 20000,
                utilizationRate := 40 },
    apy := 6, risk := "low", liquidity := 20000 }

/-- Counterexample to claim C7 as stated: net APY 5, best opportunity 6,
`minYieldThreshold = 2`.  The APY gap of 1 does not exceed
`minYieldThreshold`, so the claim's condition is false, yet the code
compares against `minYieldThreshold / 100 = 0.02` and returns true. -/
theorem shouldRebalance_claim_counterexample :
    shouldRebalance configMYT2 limitsMin1_5 accountHealthy metricsNet5 rm0
        none (some [oppAPY6]) = .ok true ∧
    shouldRebalanceClaimed configMYT2 limitsMin1_5 accountHealthy metricsNet5
        rm0 none (some [oppAPY6]) = false := by
  constructor
  · norm_num [shouldRebalance, shouldRebalanceOpportunityCheck, configMYT2,
      limitsMin1_5, accountHealthy, metricsNet5, rm0, oppAPY6]
  · norm_num [shouldRebalanceClaimed, configMYT2, limitsMin1_5,
      accountHealthy, metricsNet5, rm0, oppAPY6]
    decide

/-- Witness for the amended C7: at the concrete input above, the theorem
applies (the fetch result is nonempty) and the fourth disjunct holds, so
`shouldRebalance` returns true. -/
theorem shouldRebalance_iff_witness :
    shouldRebalance configMYT2 limitsMin1_5 accountHealthy metricsNet5 rm0
        none (some [oppAPY6]) = .ok true :=
  (shouldRebalance_iff configMYT2 limitsMin1_5 accountHealthy metricsNet5 rm0
      none (some [oppAPY6]) (by simp)).mpr
    (Or.inr (Or.inr (Or.inr ⟨oppAPY6, [], rfl, by
      norm_num [configMYT2, oppAPY6, metricsNet5]⟩)))

/-- A `price_based` trigger demanding the live price be below 100. -/
def trigPriceBelow100 : AutomationTrigger :=
  { ttype := "price_based", condition := "price", value := 100,
    comparison := "less_than" }

/-- Claim C8, behaviour of the code at the failing input: the five
signal-based trigger evaluators are unconditional placeholders, so the
`price_based` trigger "price < 100" evaluates true through `evaluateTrigger`,
even though for a live signal of 150 the comparison named by
`trigger.comparison` is false. -/
theorem signalTriggerEvaluators_placeholder :
    evaluatePriceTrigger trigPriceBelow100 scenNoTriggers ctx0 = true ∧
    evaluateAPYTrigger trigPriceBelow100 scenNoTriggers ctx0 = true ∧
    evaluateHealthFactorTrigger trigPriceBelow100 scenNoTriggers ctx0 = true ∧
    evaluateProfitTrigger trigPriceBelow100 scenNoTriggers ctx0 = true ∧
    evaluateLossTrigger trigPriceBelow100 scenNoTriggers ctx0 = true ∧
    evaluateTrigger 0 trigPriceBelow100 scenNoTriggers ctx0 = true ∧
    compareWithOperator 150 trigPriceBelow100 = false := by
  refine ⟨rfl, rfl, rfl, rfl, rfl, rfl, ?_⟩
  norm_num [compareWithOperator, trigPriceBelow100]

deriving instance DecidableEq for Except

theorem runScenarios_break_head
    (exec : AutomationScenario → Except String ScenarioExecutionResult)
    (now : ℚ) (context : AutomationContext) ( scen : AutomationScenario)
    (rest : List AutomationScenario) (result : ScenarioExecutionResult)
    (hen : scen.enabled = true)
    (htrig : checkScenarioTriggers now scen context = true)
    (hexec : exec scen = .ok result)
    (hexecd : result.executed = true)
    (hpri : 8 < scen.priority) :
    (runScenarios exec now context (scen :: rest)).results = [result] := by
  unfold runScenarios
  simp [hen, htrig, hexec, hpri, hexecd]

/-- The `success = true, executed = false` entry the loop pushes for an
enabled scenario whose triggers are not met. -/
def notTriggeredEntry (a : AutomationScenario) : ScenarioExecutionResult :=
  { scenarioId := a.id, scenarioName := a.name, success := true,
    executed := false, message := "Triggers not met, skipping scenario" }

theorem runScenarios_skipped_prefix
    (exec : AutomationScenario → Except String ScenarioExecutionResult)
    (now : ℚ) (context : AutomationContext)
    (pre : List AutomationScenario) :
    ∀ tail : List AutomationScenario,
      (∀ a ∈ pre, a.enabled = false ∨
        checkScenarioTriggers now a context = false) →
      runScenarios exec now context (pre ++ tail) =
        { results := (pre.filter (fun a => a.enabled)).map notTriggeredEntry ++
            (runScenarios exec now context tail).results,
          totalTransactions :=
            (runScenarios exec now context tail).totalTransactions,
          totalProfit := (runScenarios exec now context tail).totalProfit,
          totalGasUsed := (runScenarios exec now context tail).totalGasUsed } := by
  induction pre with
  | nil => intro tail _; simp
  | cons a pre ih =>
    intro tail hpre
    have ha := hpre a (List.mem_cons_self a pre)
    have hrest : ∀ b ∈ pre, b.enabled = false ∨
        checkScenarioTriggers now b context = false :=
      fun b hb => hpre b (List.mem_cons_of_mem a hb)
    by_cases hena : a.enabled = false
    · rw [List.cons_append, runScenarios.eq_def]
      simp [hena, ih tail hrest]
    · have hatrig : checkScenarioTriggers now a context = false := by
        rcases ha with ha | ha
        · exact absurd ha hena
        · exact ha
      rw [List.cons_append, runScenarios.eq_def]
      simp [hena, hatrig, ih tail hrest, notTriggeredEntry]

/-- Claim C2 (amended): in any cycle whose scenario list contains an
enabled, triggered scenario of priority above 8 that executes successfully —
it is reached because every scenario before it is disabled or not triggered,
and its execution reports `executed = true` — the loop breaks right after
it: the per-scenario report consists of the not-triggered entries of the
preceding enabled scenarios followed by that scenario's entry, which is the
only entry with `executed = true`.  Hence no scenario of lower priority is
executed in that cycle, and the scenarios after the preempting one are
absent from the report rather than reported with `executed = false`. -/
theorem runScenarios_preemption
    (exec : AutomationScenario → Except String ScenarioExecutionResult)
    (now : ℚ) (context : AutomationContext)
    (pre : List AutomationScenario) ( scen : AutomationScenario)
    (rest : List AutomationScenario) (result : ScenarioExecutionResult)
    (hpre : ∀ a ∈ pre, a.enabled = false ∨
      checkScenarioTriggers now a context = false)
    (hen : scen.enabled = true)
    (htrig : checkScenarioTriggers now scen context = true)
    (hexec : exec scen = .ok result)
    (hexecd : result.executed = true)
    (hpri : 8 < scen.priority) :
    (runScenarios exec now context (pre ++ scen :: rest)).results =
      (pre.filter (fun a => a.enabled)).map notTriggeredEntry ++ [result] ∧
    ∀ e ∈ (runScenarios exec now context (pre ++ scen :: rest)).results,
      e.executed = true → e = result := by
  have hhead : (runScenarios exec now context (scen :: rest)).results =
      [result] :=
    runScenarios_break_head exec now context scen rest result hen htrig hexec
      hexecd hpri
  have hpref :=
    runScenarios_skipped_prefix exec now context pre (scen :: rest) hpre
  have hres : (runScenarios exec now context (pre ++ scen :: rest)).results =
      (pre.filter (fun a => a.enabled)).map notTriggeredEntry ++ [result] := by
    rw [hpref]
    dsimp only
    rw [hhead]
  refine ⟨hres, ?_⟩
  intro e he hex
  rw [hres] at he
  rcases List.mem_append.mp he with h | h
  · obtain ⟨a, _, rfl⟩ := List.mem_map.mp h
    simp [notTriggeredEntry] at hex
  · exact List.mem_singleton.mp h

/-- The priority-5 scenario of the preemption example. -/
def scenB5 : AutomationScenario :=
  { id := "B", name := "low", stype := "yield_optimization", enabled := true,
    triggers := [], parameters := {}, riskLevel := "low", priority := 5 }

/-- A context holding the priority-10 and priority-5 example scenarios, in
registration (descending-priority) order. -/
def ctxC2 : AutomationContext :=
  { userAddress := "0xU", chainId := 1329,
    scenarios := [scenNoTriggers, scenB5],
    globalConfig := cfg0, performanceMetrics := metrics0 }

/-- A registry holding only `ctxC2`. -/
def contextsC2 : String → Option AutomationContext :=
  fun a => if a = "0xU" then some ctxC2 else none

/-- An executor oracle that succeeds on every scenario with one
transaction. -/
def execOk : AutomationScenario → Except String ScenarioExecutionResult :=
  fun scen =>
    .ok { scenarioId := scen.id, scenarioName := scen.name, success := true,
          executed := true, message := "ok", transactions := some [⟨"t1"⟩],
          profit := some 1, gasUsed := some 1 }

/-- The execution result of the priority-10 scenario under `execOk`. -/
def resultA : ScenarioExecutionResult :=
  { scenarioId := "A", scenarioName := "high", success := true,
    executed := true, message := "ok", transactions := some [⟨"t1"⟩],
    profit := some 1, gasUsed := some 1 }

/-- The cycle summary of the preemption example: only the priority-10
scenario is reported. -/
def summaryC2 : CycleSummary :=
  { totalScenarios := 1, executedScenarios := 1, successfulScenarios := 1,
    totalProfit := 1, totalGasUsed := 1, scenarios := [resultA] }

/-- The aggregate result of the preemption example cycle. -/
def resC2 : ExecutionResult :=
  { skip := false, message := "Executed 1 scenarios successfully",
    transactions := some [⟨"t1"⟩], gasEstimate := 1, expectedProfit := some 1,
    metadata := some summaryC2 }

/-- Counterexample to claim C2 as stated: in the cycle with the enabled,
triggered, successfully executing priority-10 scenario followed by the
priority-5 scenario, the per-scenario report contains exactly one entry (for
the priority-10 scenario); the priority-5 scenario is not reported at all,
contradicting "the priority-5 scenario is reported with executed=false". -/
theorem preemption_claim_counterexample :
    executeAutomationTasks contextsC2 "0xU" execOk 0 = .ok resC2 ∧
    summaryC2.scenarios.length = 1 ∧
    (summaryC2.scenarios.filter (fun r => r.scenarioId = "B")).length = 0 := by
  refine ⟨?_, by decide, by decide⟩
  decide

/-- A disabled priority-10 scenario preceding the preempting one. -/
def scenDisabled : AutomationScenario :=
  { id := "D", name := "disabled", stype := "risk_management",
    enabled := false, triggers := [], parameters := {}, riskLevel := "low",
    priority := 10 }

/-- An enabled priority-9 scenario whose (unknown-type) trigger is not met,
preceding the preempting one. -/
def scenNT9 : AutomationScenario :=
  { id := "N", name := "not-triggered", stype := "risk_management",
    enabled := true,
    triggers := [{ ttype := "sentiment_based", condition := "c", value := 1,
                   comparison := "greater_than" }],
    parameters := {}, riskLevel := "low", priority := 9 }

/-- Witness for the amended C2: in the sorted cycle
[disabled priority 10, non-triggered priority 9, priority 10 preempting,
priority 5], the theorem applies and the report is the not-triggered entry
followed by the preempting entry alone; the priority-5 scenario is absent. -/
theorem runScenarios_preemption_witness :
    (runScenarios execOk 0 ctxC2
        [scenDisabled, scenNT9, scenNoTriggers, scenB5]).results =
      [notTriggeredEntry scenNT9, resultA] := by
  have h := (runScenarios_preemption execOk 0 ctxC2 [scenDisabled, scenNT9]
    scenNoTriggers [scenB5] resultA (by decide) rfl rfl rfl rfl (by decide)).1
  simpa [scenDisabled, scenNT9] using h

/-- A scenario result that contributes at least one transaction to the
aggregate: it succeeded, executed, and carries a nonempty transaction
array. -/
def producedTx (r : ScenarioExecutionResult) : Prop :=
  r.success = true ∧ r.executed = true ∧
    ∃ l, r.transactions = some l ∧ l ≠ []

theorem contributed_ne_nil_iff (result : ScenarioExecutionResult) :
    (if result.success && result.executed && result.transactions.isSome
     then result.transactions.getD [] else []) ≠ [] ↔ producedTx result := by
  rcases result with ⟨i, n, succ, execd, msg, tx, p, g⟩
  cases succ <;> cases execd <;> rcases tx with _ | l <;>
    simp [producedTx]

theorem runScenarios_txs_ne_nil_iff
    (exec : AutomationScenario → Except String ScenarioExecutionResult)
    (now : ℚ) (context : AutomationContext) (l : List AutomationScenario) :
    (runScenarios exec now context l).totalTransactions ≠ [] ↔
      ∃ r ∈ (runScenarios exec now context l).results, producedTx r := by
  induction l with
  | nil => simp [runScenarios]
  | cons scen rest ih =>
    unfold runScenarios
    by_cases hen : scen.enabled = false
    · simpa [hen] using ih
    · by_cases htrig : checkScenarioTriggers now scen context = false
      · simpa [hen, htrig, producedTx] using ih
      · cases hexec : exec scen with
        | error msg => simpa [hen, htrig, hexec, producedTx] using ih
        | ok result =>
          by_cases hbr : 8 < scen.priority ∧ result.executed = true
          · simpa [hen, htrig, hexec, hbr] using contributed_ne_nil_iff result
          · have hc := contributed_ne_nil_iff result
            simp only [hen, htrig, hexec, hbr] at *
            simp [hen, htrig, hexec, hbr, ih, hc]
            rw [← hc, ← ih]
            simp [List.append_eq_nil]
            tauto

/-- Claim C3: a cycle's aggregate result has `skip = false` iff some
scenario of the cycle produced at least one transaction (a successful,
executed scenario result carrying a nonempty transaction array); and
`skip = false` never comes with an empty transaction list. -/
theorem executeAutomationTasks_skip_iff
    (contexts : String → Option AutomationContext) (owner : String)
    (exec : AutomationScenario → Except String ScenarioExecutionResult)
    (now : ℚ) (res : ExecutionResult)
    (h : executeAutomationTasks contexts owner exec now = .ok res) :
    (res.skip = false ↔
      ∃ s, res.metadata = some s ∧ ∃ r ∈ s.scenarios, producedTx r) ∧
    (res.skip = false → ∃ txs, res.transactions = some txs ∧ txs ≠ []) := by
  unfold executeAutomationTasks at h
  cases hc : contexts owner with
  | none =>
    rw [hc] at h
    injection h with h
    subst h
    simp
  | some context =>
    rw [hc] at h
    dsimp only at h
    by_cases hlen :
        0 < (runScenarios exec now context context.scenarios).totalTransactions.length
    · rw [if_pos hlen] at h
      injection h with h
      subst h
      have hne : (runScenarios exec now context context.scenarios).totalTransactions ≠ [] :=
        List.ne_nil_of_length_pos hlen
      constructor
      · simp only [true_iff]
        refine ⟨_, rfl, ?_⟩
        exact (runScenarios_txs_ne_nil_iff exec now context context.scenarios).mp hne
      · intro _
        exact ⟨_, rfl, hne⟩
    · rw [if_neg hlen] at h
      injection h with h
      subst h
      constructor
      · refine iff_of_false (by simp) ?_
        rintro ⟨s, hs, hr⟩
        injection hs with hs
        subst hs
        have hne := (runScenarios_txs_ne_nil_iff exec now context context.scenarios).mpr hr
        exact hne (List.eq_nil_of_length_eq_zero (Nat.eq_zero_of_not_pos hlen))
      · simp

/-- Witness for C3: the theorem applied to the concrete preemption-example
cycle, whose result has `skip = false` and one aggregated transaction. -/
theorem executeAutomationTasks_skip_iff_witness :
    (resC2.skip = false ↔
      ∃ s, resC2.metadata = some s ∧ ∃ r ∈ s.scenarios, producedTx r) ∧
    (resC2.skip = false → ∃ txs, resC2.transactions = some txs ∧ txs ≠ []) :=
  executeAutomationTasks_skip_iff contextsC2 "0xU" execOk 0 resC2 (by decide)

/-- A registry with no contexts at all. -/
def contextsEmpty : String → Option AutomationContext := fun _ => none

/-- An executor oracle that throws on every scenario. -/
def execErr : AutomationScenario → Except String ScenarioExecutionResult :=
  fun _ => .error "boom"

/-- The ordinary result the engine returns for an owner with no registered
context. -/
def resNoContext : ExecutionResult :=
  { skip := true, message := "No automation context found for user",
    gasEstimate := 0 }

/-- Whether a cycle outcome was raised (thrown) to the caller. -/
def raisesToCaller (e : Except String ExecutionResult) : Bool :=
  match e with
  | .error _ => true
  | .ok _ => false

/-- Counterexample to claim C9 as stated: invoked for an owner with no
registered context, `executeAutomationTasks` does not raise; it returns the
ordinary result `skip = true`, message "No automation context found for
user". -/
theorem missing_context_claim_counterexample :
    executeAutomationTasks contextsEmpty "0xU" execErr 0 = .ok resNoContext ∧
    raisesToCaller (executeAutomationTasks contextsEmpty "0xU" execErr 0) =
      false := by
  exact ⟨rfl, rfl⟩

/-- Claim C9 (amended): for an owner with no registered context the engine
returns an ordinary `skip = true` result (it never raises: every outcome is
`.ok`), while every scenario-level failure is caught and surfaced as a
failed entry inside the aggregate result, the cycle continuing with the
remaining scenarios. -/
theorem executeAutomationTasks_error_handling
    (contexts : String → Option AutomationContext) (owner : String)
    (exec : AutomationScenario → Except String ScenarioExecutionResult)
    (now : ℚ) :
    (contexts owner = none →
      executeAutomationTasks contexts owner exec now = .ok resNoContext) ∧
    (∃ res, executeAutomationTasks contexts owner exec now = .ok res) ∧
    (∀ (context : AutomationContext) ( scen : AutomationScenario)
        (rest : List AutomationScenario) (msg : String),
      scen.enabled = true →
      checkScenarioTriggers now scen context = true →
      exec scen = .error msg →
      (runScenarios exec now context (scen :: rest)).results =
        { scenarioId := scen.id, scenarioName := scen.name, success := false,
          executed := false, message := "Error: " ++ msg } ::
          (runScenarios exec now context rest).results) := by
  refine ⟨fun h => by simp [executeAutomationTasks, h, resNoContext], ?_, ?_⟩
  · unfold executeAutomationTasks
    cases contexts owner with
    | none => exact ⟨_, rfl⟩
    | some context =>
      dsimp only
      by_cases hlen :
          0 < (runScenarios exec now context context.scenarios).totalTransactions.length
      · rw [if_pos hlen]; exact ⟨_, rfl⟩
      · rw [if_neg hlen]; exact ⟨_, rfl⟩
  · intro context scen rest msg hen htrig herr
    rw [runScenarios.eq_def]
    simp [hen, htrig, herr]

/-- Witness for the amended C9: at the empty registry the theorem's first
part applies and yields the ordinary no-context result. -/
theorem executeAutomationTasks_error_handling_witness :
    executeAutomationTasks contextsEmpty "0xZ" execErr 0 = .ok resNoContext :=
  (executeAutomationTasks_error_handling contextsEmpty "0xZ" execErr 0).1 rfl

/-- The six trigger type tags known to `evaluateTrigger`'s `switch`. -/
def knownTriggerTypes : List String :=
  ["time_based", "price_based", "apy_based", "health_factor",
   "profit_threshold", "loss_threshold"]

theorem checkTriggerList_eq_false_of_mem (now : ℚ)
    ( scen : AutomationScenario) (context : AutomationContext)
    (l : List AutomationTrigger) (t : AutomationTrigger) (hm : t ∈ l)
    (hf : evaluateTrigger now t scen context = false) :
    checkTriggerList now scen context l = false := by
  cases hb : checkTriggerList now scen context l with
  | false => rfl
  | true =>
    have := (checkTriggerList_eq_true_iff now scen context l).mp hb t hm
    rw [hf] at this
    cases this

/-- Claim C10: a trigger evaluation that throws is caught and yields
`false`; a trigger whose type is not among the six known tags evaluates
`false`; and an enabled scenario containing such a trigger is reported as
not triggered — `success = true`, `executed = false`, message "Triggers not
met, skipping scenario" — rather than as a failed scenario, the cycle
continuing with the remaining scenarios. -/
theorem unknown_trigger_not_failed (now : ℚ) (t : AutomationTrigger)
    ( scen : AutomationScenario) (context : AutomationContext)
    (rest : List AutomationScenario)
    (exec : AutomationScenario → Except String ScenarioExecutionResult) :
    (∀ msg, catchTriggerError (.error msg) = false) ∧
    (t.ttype ∉ knownTriggerTypes →
      evaluateTrigger now t scen context = false) ∧
    ( scen.enabled = true → t ∈ scen.triggers →
      t.ttype ∉ knownTriggerTypes →
      (runScenarios exec now context (scen :: rest)).results =
        { scenarioId := scen.id, scenarioName := scen.name, success := true,
          executed := false, message := "Triggers not met, skipping scenario" } ::
          (runScenarios exec now context rest).results) := by
  have hunk : t.ttype ∉ knownTriggerTypes →
      evaluateTrigger now t scen context = false := by
    intro h
    simp only [knownTriggerTypes, List.mem_cons, List.not_mem_nil, or_false,
      not_or] at h
    obtain ⟨h1, h2, h3, h4, h5, h6⟩ := h
    unfold evaluateTrigger evaluateTriggerBody
    split
    · exact absurd (by assumption) h1
    · exact absurd (by assumption) h2
    · exact absurd (by assumption) h3
    · exact absurd (by assumption) h4
    · exact absurd (by assumption) h5
    · exact absurd (by assumption) h6
    · rfl
  refine ⟨fun msg => rfl, hunk, fun hen hm hk => ?_⟩
  have hchk : checkScenarioTriggers now scen context = false :=
    checkTriggerList_eq_false_of_mem now scen context scen.triggers t hm
      (hunk hk)
  rw [runScenarios.eq_def]
  simp [hen, hchk]

/-- A trigger with an unknown runtime type tag. -/
def trigUnknown : AutomationTrigger :=
  { ttype := "sentiment_based", condition := "c", value := 1,
    comparison := "greater_than" }

/-- An enabled scenario carrying only the unknown-type trigger. -/
def scenUnknown : AutomationScenario :=
  { id := "U", name := "unknown-trigger", stype := "yield_optimization",
    enabled := true, triggers := [trigUnknown], parameters := {},
    riskLevel := "low", priority := 1 }

/-- Witness for C10: the concrete scenario with the unknown-type trigger is
reported as not triggered. -/
theorem unknown_trigger_not_failed_witness :
    (runScenarios execOk 0 ctx0 [scenUnknown]).results =
      [{ scenarioId := "U", scenarioName := "unknown-trigger",
         success := true, executed := false,
         message := "Triggers not met, skipping scenario" }] := by
  have h := (unknown_trigger_not_failed 0 trigUnknown scenUnknown ctx0 []
    execOk).2.2 rfl (by decide) (by decide)
  simpa [runScenarios] using h

/-- Claim C4 (amended): `registerAutomationContext` stores the scenario list
sorted by priority descending; `updateAutomationContext` stores a supplied
scenario list exactly as given, with no re-sorting, so the descending-order
invariant after an update holds only when the supplied list was already
sorted. -/
theorem register_sorts_update_does_not
    (contexts : String → Option AutomationContext) (userAddress : String)
    (scenarios : List AutomationScenario) (globalConfig : GlobalConfig)
    (chainId : ℤ) :
    (∀ ctx, (registerAutomationContext contexts userAddress scenarios
        globalConfig chainId) userAddress = some ctx →
      List.Sorted scenarioPriorityGE ctx.scenarios) ∧
    (∀ (p : PartialAutomationContext) (l : List AutomationScenario)
        (existing ctx : AutomationContext),
      p.scenarios = some l → contexts userAddress = some existing →
      (updateAutomationContext contexts userAddress p) userAddress = some ctx →
      ctx.scenarios = l) := by
  constructor
  · intro ctx h
    unfold registerAutomationContext at h
    rw [if_pos rfl] at h
    injection h with h
    subst h
    exact List.sorted_insertionSort scenarioPriorityGE scenarios
  · intro p l existing ctx hp hex h
    unfold updateAutomationContext at h
    rw [hex] at h
    dsimp only at h
    rw [if_pos rfl] at h
    injection h with h
    subst h
    simp [mergeContext, hp]

/-- A scenario of priority 1. -/
def scenP1 : AutomationScenario :=
  { id := "P1", name := "one", stype := "risk_management", enabled := true,
    triggers := [], parameters := {}, riskLevel := "low", priority := 1 }

/-- A scenario of priority 2. -/
def scenP2 : AutomationScenario :=
  { id := "P2", name := "two", stype := "risk_management", enabled := true,
    triggers := [], parameters := {}, riskLevel := "low", priority := 2 }

/-- The registry after registering `[scenP1]` for owner 0xU and then
updating the owner's context with the (unsorted) list `[scenP1, scenP2]`. -/
def updatedContexts : String → Option AutomationContext :=
  updateAutomationContext
    (registerAutomationContext (fun _ => none) "0xU" [scenP1] cfg0 1329)
    "0xU" { scenarios := some [scenP1, scenP2] }

/-- The context stored after that update: the supplied unsorted list. -/
def ctxAfterUpdate : AutomationContext :=
  { userAddress := "0xU", chainId := 1329, scenarios := [scenP1, scenP2],
    globalConfig := cfg0, performanceMetrics := metrics0 }

/-- Counterexample to claim C4 as stated: after `updateAutomationContext`
supplies the scenario list `[priority 1, priority 2]`, the stored list is
exactly that list, which is not sorted by priority descending. -/
theorem update_sorting_counterexample :
    updatedContexts "0xU" = some ctxAfterUpdate ∧
    ¬ List.Sorted scenarioPriorityGE ctxAfterUpdate.scenarios := by
  constructor
  · decide
  · intro h
    have := List.rel_of_sorted_cons h scenP2 (by decide)
    revert this
    decide

/-- Witness for the amended C4: registering the unsorted list
`[scenP1, scenP2]` stores it sorted descending, and the update stores the
supplied list unchanged. -/
theorem register_sorts_update_does_not_witness :
    List.Sorted scenarioPriorityGE
      (AutomationContext.scenarios
        { userAddress := "0xW", chainId := 1329,
          scenarios := [scenP2, scenP1], globalConfig := cfg0,
          performanceMetrics := metrics0 }) ∧
    AutomationContext.scenarios ctxAfterUpdate = [scenP1, scenP2] := by
  constructor
  · exact (register_sorts_update_does_not (fun _ => none) "0xW"
      [scenP1, scenP2] cfg0 1329).1 _ (by decide)
  · exact (register_sorts_update_does_not
      (registerAutomationContext (fun _ => none) "0xU" [scenP1] cfg0 1329)
      "0xU" [] cfg0 1329).2 { scenarios := some [scenP1, scenP2] }
      [scenP1, scenP2]
      { userAddress := "0xU", chainId := 1329, scenarios := [scenP1],
        globalConfig := cfg0, performanceMetrics := metrics0 }
      ctxAfterUpdate rfl (by decide) (by decide)
